import Mathlib

/-!
Verification development for the Form 16A TDS extractor
(`form16_app.py`, function `extract_form16a_data_final` plus the main
application logic).

The Python program is shallowly embedded:
* `str` values become `String` / `List Char`;
* Python floats (amounts, rates) become `ℚ`;
* `None`-able values become `Option`;
* code that can raise an uncaught exception (`AttributeError` from calling
  a method on `None` / on a failed `re.search`) returns `Except Unit`,
  with `.error ()` standing for the uncaught exception;
* Python `dict` (insertion ordered, later assignment to an existing key
  overwrites in place) becomes an association list with `dinsert`.

The specific `re` patterns used by the program are embedded as dedicated
scanners over `List Char` (Python `re.search` scans for the leftmost
position at which the whole pattern matches; `.` does not match a newline;
`\s*` pieces are resolved by the usual greedy/lazy backtracking, which for
the fixed patterns below reduces to the explicit scans given here).
-/

set_option maxRecDepth 10000

/-- Results of fallible steps are compared in concrete evaluations. -/
instance {ε α : Type} [DecidableEq ε] [DecidableEq α] : DecidableEq (Except ε α) :=
  fun a b =>
    match a, b with
    | Except.error x, Except.error y =>
      if h : x = y then Decidable.isTrue (congrArg Except.error h)
      else Decidable.isFalse (fun c => h (Except.error.inj c))
    | Except.error _, Except.ok _ => Decidable.isFalse (fun c => Except.noConfusion c)
    | Except.ok _, Except.error _ => Decidable.isFalse (fun c => Except.noConfusion c)
    | Except.ok x, Except.ok y =>
      if h : x = y then Decidable.isTrue (congrArg Except.ok h)
      else Decidable.isFalse (fun c => h (Except.ok.inj c))

/- The library's rational arithmetic is `@[irreducible]`, which blocks
`decide`-style evaluation of the embedded program on concrete inputs;
the values computed are unchanged. -/
attribute [local semireducible] Rat.add Rat.mul Rat.inv Rat.sub

/-! ## Python string primitives -/

/-- Python `\s` whitespace class (ASCII part): space, tab, newline,
carriage return, vertical tab (11), form feed (12). -/
def pyWs (c : Char) : Bool :=
  c = ' ' || c = '\t' || c = '\n' || c = '\r' || c.toNat = 11 || c.toNat = 12

/-- Python `str.strip()` on a character list. -/
def pyStripL (l : List Char) : List Char :=
  ((l.dropWhile pyWs).reverse.dropWhile pyWs).reverse

/-- Python `str.strip()`. -/
def pyStrip (s : String) : String :=
  ⟨pyStripL s.toList⟩

/-- Substring occurrence over character lists. -/
def containsSub (needle : List Char) : List Char → Bool
  | [] => needle.isEmpty
  | c :: rest => needle.isPrefixOf (c :: rest) || containsSub needle rest

/-- Python `needle in hay` substring test. -/
def strContains (hay needle : String) : Bool :=
  containsSub needle.toList hay.toList

/-- Python `s.isdigit()` (restricted to ASCII digits, the only digits the
certificates contain). -/
def isDigitStr (s : String) : Bool :=
  !s.isEmpty && s.toList.all Char.isDigit

/-- Python `s.replace(",", "")`: replacing every occurrence of the
one-character pattern `,` by the empty string removes exactly the comma
characters. -/
def stripCommas (s : String) : String :=
  ⟨s.toList.filter (· ≠ ',')⟩

/-- Numeric value of a digit list (most significant first). -/
def digitsToNat (l : List Char) : ℕ :=
  l.foldl (fun a c => 10 * a + (c.toNat - 48)) 0

/-- Python `float(s)` on the decimal forms the certificates contain:
optional surrounding whitespace, optional sign, digits with an optional
fractional part.  Exponent, `inf` and `nan` forms are not exercised by
this program and are mapped to `none` (a `ValueError`). -/
def pyFloat (s : String) : Option ℚ :=
  let l := pyStripL s.toList
  let signed : Bool × List Char :=
    match l with
    | '-' :: rest => (true, rest)
    | '+' :: rest => (false, rest)
    | _ => (false, l)
  let ip := signed.2.takeWhile Char.isDigit
  let rest := signed.2.dropWhile Char.isDigit
  let mag : Option ℚ :=
    match rest with
    | [] => if ip.isEmpty then none else some (digitsToNat ip)
    | '.' :: frac =>
        if frac.all Char.isDigit && !(ip.isEmpty && frac.isEmpty) then
          some ((digitsToNat ip : ℚ) + (digitsToNat frac : ℚ) / (10 ^ frac.length))
        else none
    | _ => none
  mag.map (fun q => if signed.1 then -q else q)

/-- Python `s.lstrip("0")`. -/
def lstripZeros (l : List Char) : List Char :=
  l.dropWhile (· = '0')

/-! ## Embedded `re.search` scanners

Each Python pattern used by the program is a literal label followed by a
fixed tail.  `reSearch` scans left to right for the first occurrence of
the label whose tail also matches, exactly as `re.search` does for these
patterns (every full match starts with the literal label). -/

/-- Scan for the leftmost occurrence of the literal `label` whose
remaining text satisfies the tail matcher `f`. -/
def reSearch (label : List Char) (f : List Char → Option α) : List Char → Option α
  | [] => none
  | c :: rest =>
    if label.isPrefixOf (c :: rest) then
      match f ((c :: rest).drop label.length) with
      | some r => some r
      | none => reSearch label f rest
    else reSearch label f rest

/-- Tail matcher for `(.*?)\n` (with `.` not matching a newline): the
capture is the text up to the first newline, provided one exists. -/
def capToNewline (tail : List Char) : Option (List Char) :=
  if tail.contains '\n' then some (tail.takeWhile (· ≠ '\n')) else none

/-- `\s*lit` matches at the head of `s`: some (possibly empty) whitespace
run followed by the literal `lit`. -/
def wsThenLit (lit : List Char) : List Char → Bool
  | [] => lit.isPrefixOf ([] : List Char)
  | c :: rest => lit.isPrefixOf (c :: rest) || (pyWs c && wsThenLit lit rest)

/-- Lazy capture `(.*?)\s*lit`: grow the (newline-free) capture one
character at a time until `\s*lit` matches, as Python's lazy `.*?` does. -/
def capScan (lit : List Char) : List Char → Option (List Char)
  | [] => if wsThenLit lit ([] : List Char) then some [] else none
  | c :: rest =>
    if wsThenLit lit (c :: rest) then some []
    else if c = '\n' then none
    else (capScan lit rest).map (c :: ·)

/-- Tail matcher for `\s*(.*?)\s*lit`: Python first consumes the maximal
whitespace run (greedy `\s*`), then grows the lazy newline-free capture.
(If the attempt with the maximal run fails, every shorter run fails too:
giving whitespace back moves it into the capture, which cannot cross a
newline and reaches the same literal occurrences.) -/
def wsCapWs (lit : List Char) (tail : List Char) : Option (List Char) :=
  capScan lit (tail.dropWhile pyWs)

/-- Tail matcher for `\s*\n\s*tok` (when `requireNl`) or `\s*tok`:
the token must begin right after the maximal whitespace run (the token
classes used start with a non-whitespace character), and for the
`\s*\n\s*` form the run must contain a newline. -/
def wsRunTok (requireNl : Bool) (tok : List Char → Option α) (tail : List Char) :
    Option α :=
  if !requireNl || (tail.takeWhile pyWs).contains '\n' then
    tok (tail.dropWhile pyWs)
  else none

/-- ASCII `[A-Z]`. -/
def isUpperAZ (c : Char) : Bool :=
  'A' ≤ c && c ≤ 'Z'

/-- Token `[A-Z]{5}[0-9]{4}[A-Z]` at the head of the text. -/
def panTok (l : List Char) : Option (List Char) :=
  let t := l.take 10
  if t.length = 10 && (t.take 5).all isUpperAZ &&
      ((t.drop 5).take 4).all Char.isDigit && (t.drop 9).all isUpperAZ then
    some t
  else none

/-- Token `(Q[1-4]|0[1-4])` at the head of the text. -/
def quarterTok : List Char → Option (List Char)
  | c :: d :: _ =>
    if (c = 'Q' || c = '0') && '1' ≤ d && d ≤ '4' then some [c, d] else none
  | _ => none

/-! ## Header extraction (`extract_form16a_data_final`, step A)

```
deductor_name = (re.search(r"Name and address of the deductor\n(.*?)\n", t)
                 or re.search(r"Name and address of the deductor\s*(.*?)\s*PAN", t)).group(1).strip()
deductee_name = (re.search(r"Name and address of the deductee\n(.*?)\n", t)
                 or re.search(r"Name and address of the deductee\s*(.*?)\s*Assessment Year", t)).group(1).strip()
pan_match = re.search(r"PAN of the deductee\s*\n\s*([A-Z]{5}[0-9]{4}[A-Z])", t)
            or re.search(r"PAN of the deductee\s*([A-Z]{5}[0-9]{4}[A-Z])", t)
pan = pan_match.group(1) if pan_match else "Unknown"
quarter_match = re.search(r"Quarter\s*\n\s*(Q[1-4]|0[1-4])", t)
quarter = f"Q{quarter_match.group(1).lstrip('0')}" if quarter_match else "Unknown"
```

When both name searches return `None`, `.group(1)` raises `AttributeError`
(modelled as `.error ()`); `pan` and `quarter` have explicit defaults. -/

/-- The two-rule search for the deductor name (group 1, unstripped). -/
def deductorRaw (t : String) : Option (List Char) :=
  (reSearch "Name and address of the deductor\n".toList capToNewline t.toList).orElse
    (fun _ => reSearch "Name and address of the deductor".toList (wsCapWs "PAN".toList) t.toList)

/-- The two-rule search for the deductee name (group 1, unstripped). -/
def deducteeRaw (t : String) : Option (List Char) :=
  (reSearch "Name and address of the deductee\n".toList capToNewline t.toList).orElse
    (fun _ => reSearch "Name and address of the deductee".toList
      (wsCapWs "Assessment Year".toList) t.toList)

/-- The two-rule search for the deductee PAN. -/
def panRaw (t : String) : Option (List Char) :=
  (reSearch "PAN of the deductee".toList (wsRunTok true panTok) t.toList).orElse
    (fun _ => reSearch "PAN of the deductee".toList (wsRunTok false panTok) t.toList)

/-- The quarter search. -/
def quarterRaw (t : String) : Option (List Char) :=
  reSearch "Quarter".toList (wsRunTok true quarterTok) t.toList

/-- `pan = pan_match.group(1) if pan_match else "Unknown"`. -/
def panOf (t : String) : String :=
  match panRaw t with
  | some l => ⟨l⟩
  | none => "Unknown"

/-- `quarter = f"Q{quarter_match.group(1).lstrip('0')}" if quarter_match else "Unknown"`. -/
def quarterOf (t : String) : String :=
  match quarterRaw t with
  | some l => "Q" ++ (⟨lstripZeros l⟩ : String)
  | none => "Unknown"

/-- Per-certificate header attributes. -/
structure Header where
  deductorName : String
  deducteeName : String
  pan : String
  quarter : String
deriving DecidableEq, Repr

/-- Header extraction from the block's first-page text, in the source's
evaluation order; `.error ()` is the uncaught `AttributeError` raised when
both rules for a name field fail. -/
def extractHeader (t : String) : Except Unit Header := do
  let dtor ← match deductorRaw t with
    | some l => Except.ok (⟨pyStripL l⟩ : String)
    | none => Except.error ()
  let dtee ← match deducteeRaw t with
    | some l => Except.ok (⟨pyStripL l⟩ : String)
    | none => Except.error ()
  Except.ok { deductorName := dtor, deducteeName := dtee,
              pan := panOf t, quarter := quarterOf t }

/-! ## Transactional tables (`extract_form16a_data_final`, step B)

A pdfplumber table is a list of rows; a row is a list of cells, each cell
`Option String` (`None` cells do occur).  The source iterates
`table[1:]` under `try: ... except (ValueError, IndexError): continue`;
an `AttributeError` (calling `.strip()` / `.replace` on a `None` cell) is
NOT in that tuple and propagates out of the whole function.  Row results:
`.error ()` = uncaught `AttributeError`, `.ok none` = row skipped,
`.ok (some e)` = entry recorded. -/

/-- A table row: cells as extracted by pdfplumber. -/
abbrev Row := List (Option String)

/-- A geometrically-extracted table. -/
abbrev Table := List Row

/-- Payment entry payload: `{'amount_paid': ..., 'payment_date': row[4]}`. -/
structure PayInfo where
  amount_paid : ℚ
  payment_date : Option String
deriving DecidableEq, Repr

/-- `' '.join(filter(None, table[0]))`: drop `None` and empty cells, join
with single spaces. -/
def joinCells (r : Row) : String :=
  String.intercalate " " ((r.filterMap id).filter (· ≠ ""))

/-- One data row of a "Summary of payment" table:
```
sl_no = row[0].strip()
if sl_no and sl_no.isdigit():
    payments_dict[sl_no] = {'amount_paid': float(row[1].replace(',', '')),
                            'payment_date': row[4]}
```
-/
def payRow (row : Row) : Except Unit (Option (String × PayInfo)) :=
  match row.get? 0 with
  | none => Except.ok none
  | some none => Except.error ()
  | some (some c0) =>
    let sl := pyStrip c0
    if !sl.isEmpty && isDigitStr sl then
      match row.get? 1 with
      | none => Except.ok none
      | some none => Except.error ()
      | some (some c1) =>
        match pyFloat (stripCommas c1) with
        | none => Except.ok none
        | some amt =>
          match row.get? 4 with
          | none => Except.ok none
          | some d => Except.ok (some (sl, ⟨amt, d⟩))
    else Except.ok none

/-- One data row of a "tax deducted ... through challan" table:
```
sl_no = row[0].strip()
if sl_no and sl_no.isdigit():
    tax_val_str = row[1] or "0"
    challans_dict[sl_no] = {'tds_amount': float(tax_val_str.replace(',', ''))}
```
-/
def chRow (row : Row) : Except Unit (Option (String × ℚ)) :=
  match row.get? 0 with
  | none => Except.ok none
  | some none => Except.error ()
  | some (some c0) =>
    let sl := pyStrip c0
    if !sl.isEmpty && isDigitStr sl then
      match row.get? 1 with
      | none => Except.ok none
      | some v =>
        let tvs := match v with
          | none => "0"
          | some s => if s = "" then "0" else s
        match pyFloat (stripCommas tvs) with
        | none => Except.ok none
        | some amt => Except.ok (some (sl, amt))
    else Except.ok none

/-- Run a row extractor over the data rows in order, collecting the
entries; the first uncaught exception aborts. -/
def collectRows (f : Row → Except Unit (Option α)) : List Row → Except Unit (List α)
  | [] => Except.ok []
  | r :: rs => do
    let e ← f r
    let rest ← collectRows f rs
    match e with
    | some x => Except.ok (x :: rest)
    | none => Except.ok rest

/-- The ordered entry streams contributed by one table (`.1` payments,
`.2` challans).  `if not table or not table[0]: continue`; the header row
is classified by substring tests on the joined cells; the payments `if`
runs before the challans `if`, as in the source. -/
def tableRawEntries (t : Table) : Except Unit (List (String × PayInfo) × List (String × ℚ)) :=
  match t with
  | [] => Except.ok ([], [])
  | hr :: rows =>
    if hr.isEmpty then Except.ok ([], [])
    else
      let htext := joinCells hr
      do
        let pl ←
          if strContains htext "Amount paid/credited" &&
              strContains htext "Date of payment/credit" then
            collectRows payRow rows
          else Except.ok []
        let cl ←
          if strContains htext "Tax deposited in respect" &&
              strContains htext "BSR Code" then
            collectRows chRow rows
          else Except.ok []
        Except.ok (pl, cl)

/-! ## Pages and the document -/

/-- A positioned word (used only by the spec-modelled spatial strategy;
the source file under verification never reads word coordinates). -/
structure Word where
  x : ℚ
  y : ℚ
  tok : String
deriving DecidableEq, Repr

/-- One page of the document, as exposed by the reader:
`text` is `page.extract_text(x_tolerance=2)`,
`headerText` is `page.extract_text(x_tolerance=2, y_tolerance=3)`
(`none` when text extraction yields nothing),
`tables` is `page.extract_tables({..lines..})`, `words` the positioned
words. -/
structure Page where
  text : Option String
  headerText : Option String
  tables : List Table
  words : List Word
deriving DecidableEq, Repr

/-- The uploaded document. -/
structure Document where
  pages : List Page
deriving DecidableEq, Repr

/-- Page at an index (all indices used by the pipeline are in range). -/
def pageAt (doc : Document) (i : ℕ) : Page :=
  doc.pages.getD i ⟨none, none, [], []⟩

/-- `page.extract_text(x_tolerance=2) or ""`. -/
def pageText (p : Page) : String :=
  p.text.getD ""

/-- `header_page.extract_text(x_tolerance=2, y_tolerance=3) or ""`. -/
def headerTextAt (doc : Document) (i : ℕ) : String :=
  (pageAt doc i).headerText.getD ""

/-- The ordered entry streams contributed by all tables of one page. -/
def pageEntries (p : Page) : Except Unit (List (String × PayInfo) × List (String × ℚ)) :=
  p.tables.foldlM
    (fun acc t => do
      let r ← tableRawEntries t
      Except.ok (acc.1 ++ r.1, acc.2 ++ r.2))
    ([], [])

/-- The entry streams pooled over the block's page range
`range(start_index, end_index)` — all pages feed the same
certificate-scoped key space. -/
def blockEntries (doc : Document) (s e : ℕ) :
    Except Unit (List (String × PayInfo) × List (String × ℚ)) :=
  (List.range' s (e - s)).foldlM
    (fun acc i => do
      let r ← pageEntries (pageAt doc i)
      Except.ok (acc.1 ++ r.1, acc.2 ++ r.2))
    ([], [])

/-! ## Python dicts as association lists -/

/-- Python `d[k] = v`: overwrite in place if the key exists (keeping its
position), else append. -/
def dinsert (k : String) (v : α) : List (String × α) → List (String × α)
  | [] => [(k, v)]
  | (k', v') :: d => if k' = k then (k', v) :: d else (k', v') :: dinsert k v d

/-- The dict built by executing `d[k] = v` for each entry in order,
starting from `{}`. -/
def buildDict (l : List (String × α)) : List (String × α) :=
  l.foldl (fun d e => dinsert e.1 e.2 d) []

/-- Python `d.get(k)` (as `Option`). -/
def dlookup (k : String) : List (String × α) → Option α
  | [] => none
  | (k', v) :: d => if k' = k then some v else dlookup k d

/-! ## Merge and final records (`extract_form16a_data_final`, step C) -/

/-- Python `round(x, 2)` on the embedded rational value.  (Python rounds
floats half-to-even; the integer-rounding mode only matters at exact
ties, which none of the verified properties depend on.) -/
def round2 (q : ℚ) : ℚ :=
  (round (q * 100) : ℤ) / 100

/-- `f"{r:.2f}"` for a value that is an integer multiple of `1/100`
(every rate is, being `round(_, 2)` or `0.0`). -/
def fmt2 (q : ℚ) : String :=
  let n : ℤ := round (q * 100)
  let core := fun (m : ℕ) =>
    toString (m / 100) ++ "." ++
      (if m % 100 < 10 then "0" ++ toString (m % 100) else toString (m % 100))
  if n < 0 then "-" ++ core n.natAbs else core n.toNat

/-- One output row. -/
structure Record where
  quarter : String
  dateOfDeduction : Option String
  deducteeName : String
  pan : String
  taxableValue : ℚ
  ratePct : String
  tdsAmount : ℚ
  deductorName : String
deriving DecidableEq, Repr

/-- Build one output record from a payment entry and the deposit amount:
`rate = round((tds / amount) * 100, 2) if amount > 0 else 0.0`
(the surrounding `try/except ZeroDivisionError` can never fire because of
the guard; the embedding is total). -/
def mkRecord (h : Header) (e : String × PayInfo) (tds : ℚ) : Record :=
  let rate : ℚ := if 0 < e.2.amount_paid then round2 (tds / e.2.amount_paid * 100) else 0
  { quarter := h.quarter
    dateOfDeduction := e.2.payment_date
    deducteeName := h.deducteeName
    pan := h.pan
    taxableValue := e.2.amount_paid
    ratePct := fmt2 rate
    tdsAmount := tds
    deductorName := h.deductorName }

/-- Step C: one record per entry of `payments_dict`, in dict order, with
`challans_dict.get(sl_no, {'tds_amount': 0.0})`. -/
def mergeBlock (h : Header) (pd : List (String × PayInfo)) (cd : List (String × ℚ)) :
    List Record :=
  pd.map fun e => mkRecord h e ((dlookup e.1 cd).getD 0)

/-- Process one certificate block `[s, e)`: header from page `s`, entries
pooled over pages `s..e-1`, then merge. -/
def processBlock (doc : Document) (s e : ℕ) : Except Unit (List Record) := do
  let h ← extractHeader (headerTextAt doc s)
  let r ← blockEntries doc s e
  Except.ok (mergeBlock h (buildDict r.1) (buildDict r.2))

/-! ## Page classification, segmentation, pipeline -/

/-- Step 1 page test:
`"Certificate under section 203" in text and "FORM NO. 16A" in text`. -/
def isStartPage (p : Page) : Bool :=
  strContains (pageText p) "Certificate under section 203" &&
    strContains (pageText p) "FORM NO. 16A"

/-- `start_page_indices`, in page order. -/
def startIndices (doc : Document) : List ℕ :=
  (List.range doc.pages.length).filter (fun i => isStartPage (pageAt doc i))

/-- Step 2 segmentation: for each `i`,
`end_index = start_page_indices[i + 1] if i + 1 < len(start_page_indices) else len(pdf.pages)`. -/
def mkBlocks (starts : List ℕ) (pageCount : ℕ) : List (ℕ × ℕ) :=
  (List.range starts.length).map fun i =>
    (starts.getD i 0,
      if i + 1 < starts.length then starts.getD (i + 1) 0 else pageCount)

/-- `st.error` message for the no-start-pages condition. -/
def noStartMsg : String :=
  "Could not find any valid Form 16A start pages. Please check the PDF."

/-- `st.error` message shown by the main logic when the result is empty. -/
def emptyMsg : String :=
  "❌ No valid TDS data was extracted. The PDF might be password-protected or in an unsupported format."

/-- `extract_form16a_data_final`: the record list together with the
diagnostics emitted inside the function (`st.error` on the no-start
condition).  `.error ()` is an uncaught exception escaping the function. -/
def extractFinal (doc : Document) : Except Unit (List Record × List String) :=
  let starts := startIndices doc
  if starts.isEmpty then Except.ok ([], [noStartMsg])
  else do
    let recs ← (mkBlocks starts doc.pages.length).foldlM
      (fun acc b => do
        let r ← processBlock doc b.1 b.2
        Except.ok (acc ++ r))
      []
    Except.ok (recs, [])

/-- The main application logic around the call: on an empty result it
shows `emptyMsg`, otherwise the success message; the diagnostics emitted
inside `extract_form16a_data_final` come first. -/
def appMessages (doc : Document) : Except Unit (List String) :=
  match extractFinal doc with
  | Except.error u => Except.error u
  | Except.ok (recs, msgs) =>
    Except.ok (msgs ++
      [if recs.isEmpty then emptyMsg
       else "✅ Extraction Complete! Found " ++ toString recs.length ++ " records."])

/-! ## Spec-modelled strategies (TransactionExtractor, §4.4 of the design)

`src/form16_app.py` is one variant of this repository's pipeline and
contains only the structured-table strategy; the line-pattern strategy,
the spatial strategy and the per-page three-strategy fallthrough live in
the repository's other variants, which are not under `src/`.  They are
modelled here from the spec. -/

/-- A decimal-amount token: digits with an optional fractional part
(`50000.00`). -/
def decimalTok (t : String) : Bool :=
  let l := t.toList
  let a := l.takeWhile (· ≠ '.')
  match l.dropWhile (· ≠ '.') with
  | [] => !a.isEmpty && a.all Char.isDigit
  | _ :: b => !a.isEmpty && !b.isEmpty && a.all Char.isDigit && b.all Char.isDigit

/-- Modelled from the spec: the payment category-code token, "a fixed
prefix followed by alphanumeric suffix" — prefix `194` as in the
section codes of the scenario (`194C`). -/
def payCodeTok (t : String) : Bool :=
  match t.toList with
  | '1' :: '9' :: '4' :: rest => !rest.isEmpty && rest.all Char.isAlphanum
  | _ => false

/-- Modelled from the spec: the "fixed-length numeric deposit-office
code" (a 7-digit BSR code, as in the scenario's `0510001`). -/
def depCodeTok (t : String) : Bool :=
  t.length = 7 && t.toList.all Char.isDigit

/-- A `DD-MM-YYYY` date token. -/
def dateTok (t : String) : Bool :=
  match t.toList with
  | [a, b, '-', c, d, '-', e, f, g, k] =>
    [a, b, c, d, e, f, g, k].all Char.isDigit
  | _ => false

/-- Split into maximal non-whitespace runs (the nonempty pieces of a
whitespace split). -/
def tokenSplitAux : List Char → List Char → List String
  | [], acc => if acc.isEmpty then [] else [(⟨acc.reverse⟩ : String)]
  | c :: rest, acc =>
    if pyWs c then
      if acc.isEmpty then tokenSplitAux rest []
      else (⟨acc.reverse⟩ : String) :: tokenSplitAux rest []
    else tokenSplitAux rest (c :: acc)

/-- Whitespace-separated tokens of one line. -/
def tokensOf (line : String) : List String :=
  tokenSplitAux line.toList []

/-- Modelled from the spec: a payment line — a decimal amount, a payment
category code, a `DD-MM-YYYY` date. -/
def linePayMatch (line : String) : Option (ℚ × String) :=
  match tokensOf line with
  | [a, c, d] =>
    if decimalTok a && payCodeTok c && dateTok d then
      (pyFloat a).map (fun q => (q, d))
    else none
  | _ => none

/-- Modelled from the spec: a deposit line — a decimal amount, a
deposit-office code, a `DD-MM-YYYY` date. -/
def lineChMatch (line : String) : Option ℚ :=
  match tokensOf line with
  | [a, c, d] =>
    if decimalTok a && depCodeTok c && dateTok d then pyFloat a else none
  | _ => none

/-- Key entries by their 1-based ordinal position in the match sequence
(the Nth payment-pattern match pairs positionally with the Nth
deposit-pattern match). -/
def enumKeys (l : List α) : List (String × α) :=
  l.enum.map (fun p => (toString (p.1 + 1), p.2))

/-- Split a text into its lines (Python `split("\n")`: empty pieces
kept, the empty text gives one empty line). -/
def splitLinesAux : List Char → List Char → List String
  | [], acc => [(⟨acc.reverse⟩ : String)]
  | c :: rest, acc =>
    if c = '\n' then (⟨acc.reverse⟩ : String) :: splitLinesAux rest []
    else splitLinesAux rest (c :: acc)

/-- The lines of a page text. -/
def splitLines (s : String) : List String :=
  splitLinesAux s.toList []

/-- Modelled from the spec: the line-pattern strategy over one page's
extracted text.  Entries carry no explicit serial key and are keyed by
ordinal position. -/
def linePatternEntries (text : String) :
    List (String × PayInfo) × List (String × ℚ) :=
  let lines := splitLines text
  (enumKeys ((lines.filterMap linePayMatch).map (fun p => PayInfo.mk p.1 (some p.2))),
   enumKeys (lines.filterMap lineChMatch))

/-- Position order on words: top-to-bottom, then left-to-right. -/
def posLe (w v : Word) : Bool :=
  w.y < v.y || (w.y = v.y && w.x ≤ v.x)

/-- Insert into a position-sorted list. -/
def insSorted (w : Word) : List Word → List Word
  | [] => [w]
  | v :: r => if posLe w v then w :: v :: r else v :: insSorted w r

/-- Sort words by position. -/
def sortByPos (l : List Word) : List Word :=
  l.foldr insSorted []

/-- Modelled from the spec: the spatial strategy — position-sorted words
inside the respective amount-column regions, filtered to decimal-amount
tokens, keyed by ordinal position.  The spec fixes no coordinates, so the
two regions are parameters. -/
def spatialEntries (payR depR : Word → Bool) (words : List Word) :
    List (String × PayInfo) × List (String × ℚ) :=
  let ws := sortByPos words
  (enumKeys (((ws.filter (fun w => payR w && decimalTok w.tok)).filterMap
      (fun w => pyFloat w.tok)).map (fun q => PayInfo.mk q none)),
   enumKeys ((ws.filter (fun w => depR w && decimalTok w.tok)).filterMap
      (fun w => pyFloat w.tok)))

/-- A strategy result holds at least one syntactically valid entry. -/
def hasEntry (r : List (String × PayInfo) × List (String × ℚ)) : Bool :=
  !r.1.isEmpty || !r.2.isEmpty

/-- Modelled from the spec: per-page extraction trying the three
strategies in decreasing order of structural reliability, accepting the
first that yields at least one entry.  The structured-table strategy is
the one of `src/form16_app.py` (and can propagate its uncaught
exception). -/
def extractPageEntries (payR depR : Word → Bool) (p : Page) :
    Except Unit (List (String × PayInfo) × List (String × ℚ)) := do
  let r1 ← pageEntries p
  if hasEntry r1 then Except.ok r1
  else
    let r2 := linePatternEntries (pageText p)
    if hasEntry r2 then Except.ok r2
    else Except.ok (spatialEntries payR depR p.words)

/-- The everywhere-false region (used to instantiate region parameters in
concrete scenarios). -/
def noRegion : Word → Bool :=
  fun _ => false

/-! ## Concrete documents used by witnesses and counterexamples -/

/-- Scenario D page text. -/
def scenarioDText : String :=
  "50000.00 194C 01-04-2023\n5000.00 0510001 01-04-2023"

/-- Scenario D page: the text above, no tables, no words. -/
def scenarioDPage : Page :=
  { text := some scenarioDText, headerText := some scenarioDText,
    tables := [], words := [] }

/-- Page text that satisfies the start-page test. -/
def markerText : String :=
  "FORM NO. 16A Certificate under section 203 of the Income-tax Act"

/-- A header text on which every header rule succeeds. -/
def goodHeaderText : String :=
  "Name and address of the deductor\nACME LTD\nName and address of the deductee\nJOHN DOE\nPAN of the deductee\nABCDE1234F\nQuarter\n03\n"

/-- A header text with deductor and deductee labels but no PAN label and
no Quarter label. -/
def noPanHeaderText : String :=
  "Name and address of the deductor\nACME LTD\nName and address of the deductee\nJOHN DOE\n"

/-- A payments table: classified header row plus one data row. -/
def samplePayTable : Table :=
  [[some "Sl. No.", some "Amount paid/credited", none, some "Date of payment/credit"],
   [some "1", some "50,000.00", none, none, some "01-04-2023"]]

/-- A challans table: classified header row plus one data row. -/
def sampleChTable : Table :=
  [[some "Sl. No.", some "Tax deposited in respect of the deductee", some "BSR Code"],
   [some "1", some "5000.00"]]

/-- A one-certificate document whose header lacks PAN and Quarter labels
but which carries one payment and one challan row. -/
def noPanDoc : Document :=
  ⟨[{ text := some markerText, headerText := some noPanHeaderText,
      tables := [samplePayTable, sampleChTable], words := [] }]⟩

/-- A located certificate whose first page has no extractable header text
(both name rules fail). -/
def emptyHeaderDoc : Document :=
  ⟨[{ text := some markerText, headerText := none, tables := [], words := [] }]⟩

/-- A payments table whose data row has a `None` amount cell. -/
def noneCellPayTable : Table :=
  [[some "Sl. No.", some "Amount paid/credited", none, some "Date of payment/credit"],
   [some "1", none, some "x", some "x", some "01-04-2023"]]

/-- A one-certificate document with a good header and the `None`-cell
payments table. -/
def noneCellDoc : Document :=
  ⟨[{ text := some markerText, headerText := some goodHeaderText,
      tables := [noneCellPayTable], words := [] }]⟩

/-- A marker page with a good header and no tables at all. -/
def noTableDoc : Document :=
  ⟨[{ text := some markerText, headerText := some goodHeaderText,
      tables := [], words := [] }]⟩

/-- A document with no pages (so no certificate markers). -/
def emptyDoc : Document :=
  ⟨[]⟩

/-- A well-behaved one-certificate document: marker page, full header,
one payment row and one challan row. -/
def goodDoc : Document :=
  ⟨[{ text := some markerText, headerText := some goodHeaderText,
      tables := [samplePayTable, sampleChTable], words := [] }]⟩

/-! ## Helper lemmas -/

theorem keys_dinsert_mem (k : String) (v : α) (d : List (String × α)) (k' : String) :
    k' ∈ (dinsert k v d).map Prod.fst ↔ k' = k ∨ k' ∈ d.map Prod.fst := by
  induction d with
  | nil => simp [dinsert]
  | cons e d ih =>
    by_cases he : e.1 = k
    · simp [dinsert, he]
    · simp only [dinsert, if_neg he, List.map_cons, List.mem_cons, ih]
      tauto

theorem keys_dinsert_nodup (k : String) (v : α) (d : List (String × α))
    (hd : (d.map Prod.fst).Nodup) : ((dinsert k v d).map Prod.fst).Nodup := by
  induction d with
  | nil => simp [dinsert]
  | cons e d ih =>
    simp only [List.map_cons, List.nodup_cons] at hd
    by_cases he : e.1 = k
    · simpa [dinsert, he, List.nodup_cons] using hd
    · simp only [dinsert, if_neg he, List.map_cons, List.nodup_cons]
      refine ⟨fun hmem => ?_, ih hd.2⟩
      rcases (keys_dinsert_mem k v d e.1).mp hmem with h | h
      · exact he h
      · exact hd.1 h

theorem keys_foldDict_nodup (l : List (String × α)) :
    ∀ d : List (String × α), (d.map Prod.fst).Nodup →
      ((l.foldl (fun d e => dinsert e.1 e.2 d) d).map Prod.fst).Nodup := by
  induction l with
  | nil => intro d hd; simpa using hd
  | cons e l ih =>
    intro d hd
    exact ih _ (keys_dinsert_nodup e.1 e.2 d hd)

theorem keys_foldDict_mem (l : List (String × α)) :
    ∀ (d : List (String × α)) (k : String),
      k ∈ (l.foldl (fun d e => dinsert e.1 e.2 d) d).map Prod.fst ↔
        k ∈ d.map Prod.fst ∨ k ∈ l.map Prod.fst := by
  induction l with
  | nil => intro d k; simp
  | cons e l ih =>
    intro d k
    simp only [List.foldl_cons, ih, keys_dinsert_mem, List.map_cons, List.mem_cons]
    tauto

theorem keys_buildDict_nodup (l : List (String × α)) :
    ((buildDict l).map Prod.fst).Nodup :=
  keys_foldDict_nodup l [] (by simp)

theorem keys_buildDict_mem (l : List (String × α)) (k : String) :
    k ∈ (buildDict l).map Prod.fst ↔ k ∈ l.map Prod.fst := by
  simpa using keys_foldDict_mem l [] k

theorem buildDict_length (l : List (String × α)) :
    (buildDict l).length = (l.map Prod.fst).dedup.length := by
  have h1 := keys_buildDict_nodup l
  have h2 : ((buildDict l).map Prod.fst).toFinset = (l.map Prod.fst).toFinset := by
    ext k
    simp only [List.mem_toFinset]
    exact keys_buildDict_mem l k
  calc (buildDict l).length
      = ((buildDict l).map Prod.fst).length := (List.length_map _ _).symm
    _ = ((buildDict l).map Prod.fst).toFinset.card := (List.toFinset_card_of_nodup h1).symm
    _ = (l.map Prod.fst).toFinset.card := by rw [h2]
    _ = (l.map Prod.fst).dedup.length := List.card_toFinset _

theorem dlookup_eq_none_of_not_mem (d : List (String × α)) (k : String)
    (h : k ∉ d.map Prod.fst) : dlookup k d = none := by
  induction d with
  | nil => rfl
  | cons e d ih =>
    obtain ⟨k', v⟩ := e
    simp only [List.map_cons, List.mem_cons] at h
    push_neg at h
    simp only [dlookup]
    rw [if_neg (fun he => h.1 he.symm), ih h.2]

theorem round2_zero : round2 0 = 0 := by
  simp [round2]

theorem fmt2_zero : fmt2 0 = "0.00" := by
  have h : round ((0 : ℚ) * 100) = 0 := by norm_num
  simp only [fmt2, h]
  decide

/-! ## Claim theorems -/

/-- C3 (counter-evaluation): quarter extraction does NOT canonicalize a
direct `Q[1-4]` token to `Q<n>`: on a first-page text containing the
quarter label followed by the token `Q3`, the extracted quarter is the
string `QQ3` (the code prepends `Q` to the captured token and
`lstrip("0")` does not remove the captured `Q`).  The zero-padded token
`03` does canonicalize to `Q3`. -/
theorem quarter_canonicalization_evaluation :
    quarterOf "Quarter\nQ3" = "QQ3" ∧ quarterOf "Quarter\n03" = "Q3" :=
  ⟨rfl, rfl⟩

/-- C9 (counter-evaluation): a payments-table data row whose first cell
is a pure digit string but whose amount cell is `None` raises an uncaught
`AttributeError` (`None.replace` is outside the
`except (ValueError, IndexError)` tuple), aborting the table, the
certificate and the whole extraction — it is not silently skipped.  The
benign parts of the claim do hold: `12,345.00` parses to `12345` after
comma stripping, a too-short row is skipped via the caught `IndexError`,
a non-digit serial cell is skipped, and a non-numeric amount is skipped
via the caught `ValueError`. -/
theorem none_cell_aborts_extraction :
    payRow [some "1", none, some "x", some "x", some "01-04-2023"] = Except.error ()
    ∧ tableRawEntries noneCellPayTable = Except.error ()
    ∧ extractFinal noneCellDoc = Except.error ()
    ∧ pyFloat (stripCommas "12,345.00") = some (12345 : ℚ)
    ∧ payRow [some "1"] = Except.ok none
    ∧ payRow [some "x1", some "12,345.00"] = Except.ok none
    ∧ payRow [some "1", some "abc", none, none, some "01-04-2023"] = Except.ok none := by
  refine ⟨by decide, by decide, by decide, by decide, by decide, by decide, by decide⟩

/-- C1 (counterexample): a located certificate whose first page has no
extractable header text is not processed with sentinel values — the name
extraction raises an uncaught `AttributeError` (both name rules fail and
`.group(1)` is called on `None`), so the whole extraction fails and the
certificate contributes nothing. -/
theorem header_failure_counterexample :
    startIndices emptyHeaderDoc = [0]
    ∧ extractHeader (headerTextAt emptyHeaderDoc 0) = Except.error ()
    ∧ extractFinal emptyHeaderDoc = Except.error () := by
  refine ⟨by decide, by decide, by decide⟩

/-- C1 (amended): the payee identifier (PAN) and quarter fields each
independently default to the sentinel `Unknown` when their rules all
fail, and a certificate missing only those fields is still processed and
still contributes its records; but the payer/payee name fields have no
sentinel — when both rules for a name fail, header extraction raises and
the certificate's processing fails. -/
theorem header_fields_amended :
    (∀ t, panRaw t = none → panOf t = "Unknown")
    ∧ (∀ t, quarterRaw t = none → quarterOf t = "Unknown")
    ∧ (∀ t, deductorRaw t = none → extractHeader t = Except.error ())
    ∧ (∀ t l, deductorRaw t = some l → deducteeRaw t = none →
        extractHeader t = Except.error ())
    ∧ extractFinal noPanDoc = Except.ok
        ([{ quarter := "Unknown", dateOfDeduction := some "01-04-2023",
            deducteeName := "JOHN DOE", pan := "Unknown",
            taxableValue := 50000, ratePct := "10.00", tdsAmount := 5000,
            deductorName := "ACME LTD" }], []) := by
  refine ⟨?_, ?_, ?_, ?_, by decide⟩
  · intro t h; simp [panOf, h]
  · intro t h; simp [quarterOf, h]
  · intro t h; simp only [extractHeader, h]; rfl
  · intro t l h1 h2; simp only [extractHeader, h1, h2]; rfl

/-- C1 (witness for the amended theorem): instantiated at concrete header
texts. -/
theorem header_fields_amended_witness :
    panOf "no labels here" = "Unknown" ∧ extractHeader "" = Except.error () :=
  ⟨header_fields_amended.1 "no labels here" rfl,
   header_fields_amended.2.2.1 "" rfl⟩

/-- C10: a deposits-table data row whose serial cell is a pure digit
string and whose amount cell is `None` or empty yields a Deposit Entry
with amount `0` (`row[1] or "0"`), and a payment with the same key then
merges against that `0` deposit through the successful lookup, producing
TDS amount `0` and rate `0.00`. -/
theorem deposit_empty_amount_zero :
    (∀ (c0 : String) (v : Option String) (rest : List (Option String)),
        isDigitStr (pyStrip c0) = true → (v = none ∨ v = some "") →
        chRow (some c0 :: v :: rest) = Except.ok (some (pyStrip c0, 0)))
    ∧ (∀ (h : Header) (k : String) (pi : PayInfo) (cd : List (String × ℚ)),
        dlookup k cd = some 0 → 0 < pi.amount_paid →
        mergeBlock h [(k, pi)] cd =
          [{ quarter := h.quarter, dateOfDeduction := pi.payment_date,
             deducteeName := h.deducteeName, pan := h.pan,
             taxableValue := pi.amount_paid, ratePct := "0.00",
             tdsAmount := 0, deductorName := h.deductorName }]) := by
  constructor
  · intro c0 v rest hdig hv
    have hne : (pyStrip c0).isEmpty = false := by
      simp only [isDigitStr, Bool.and_eq_true, Bool.not_eq_true'] at hdig
      exact hdig.1
    have hcond : (!(pyStrip c0).isEmpty && isDigitStr (pyStrip c0)) = true := by
      simp [hne, hdig]
    rcases hv with hv | hv <;>
      simp only [chRow, hv, List.get?, hcond, if_true] <;> rfl
  · intro h k pi cd hlk hpos
    have hrate : (if 0 < pi.amount_paid then round2 (0 / pi.amount_paid * 100) else 0) = 0 := by
      rw [if_pos hpos, zero_div, zero_mul, round2_zero]
    simp only [mergeBlock, List.map_cons, List.map_nil, mkRecord, hlk, Option.getD_some]
    rw [hrate, fmt2_zero]

/-- C10 (witness): instantiated at a concrete row and a concrete merge. -/
theorem deposit_empty_amount_zero_witness :
    chRow [some "7", none] = Except.ok (some (pyStrip "7", 0))
    ∧ mergeBlock ⟨"A", "B", "C", "Q1"⟩ [("7", ⟨200, some "01-04-2023"⟩)] [("7", 0)] =
        [{ quarter := "Q1", dateOfDeduction := some "01-04-2023",
           deducteeName := "B", pan := "C", taxableValue := 200,
           ratePct := "0.00", tdsAmount := 0, deductorName := "A" }] :=
  ⟨deposit_empty_amount_zero.1 "7" none [] (by decide) (Or.inl rfl),
   deposit_empty_amount_zero.2 ⟨"A", "B", "C", "Q1"⟩ "7" ⟨200, some "01-04-2023"⟩
     [("7", 0)] rfl (by norm_num)⟩

/-- C5: every record emitted by the merger carries
`rate = round(tds / amount * 100, 2)` (rendered with two decimals) when
its payment amount is strictly positive, and exactly `0.00` otherwise
(including amount `0`); the computation is total — the `amount > 0` guard
means the division-by-zero branch is unreachable. -/
theorem rate_formula_of_record (h : Header) (pd : List (String × PayInfo))
    (cd : List (String × ℚ)) (r : Record) (hr : r ∈ mergeBlock h pd cd) :
    (0 < r.taxableValue → r.ratePct = fmt2 (round2 (r.tdsAmount / r.taxableValue * 100)))
    ∧ (¬ 0 < r.taxableValue → r.ratePct = "0.00") := by
  simp only [mergeBlock, List.mem_map] at hr
  obtain ⟨e, -, he⟩ := hr
  subst he
  constructor
  · intro hpos
    simp only [mkRecord] at hpos ⊢
    rw [if_pos hpos]
  · intro hneg
    simp only [mkRecord] at hneg ⊢
    rw [if_neg hneg, fmt2_zero]

/-- C5 (witness): a concrete merged record with payment amount 0 (and a
nonzero deposit) gets rate exactly `0.00`. -/
theorem rate_formula_of_record_witness :
    (mkRecord ⟨"A", "B", "C", "Q1"⟩ ("1", ⟨0, none⟩) 5).ratePct = "0.00" :=
  (rate_formula_of_record ⟨"A", "B", "C", "Q1"⟩ [("1", ⟨0, none⟩)] [("1", 5)]
    (mkRecord ⟨"A", "B", "C", "Q1"⟩ ("1", ⟨0, none⟩) 5) (by decide)).2 (by decide)

/-- C6: the segmenter produces exactly one block per start index, each
block running from its start index to the next start index, or to the
page count for the last block; in particular two marker pages (the first
at page 0) give exactly the two blocks `[0, start2)` and
`[start2, page_count)`. -/
theorem segmenter_blocks :
    (∀ (starts : List ℕ) (n : ℕ), (mkBlocks starts n).length = starts.length)
    ∧ (∀ (starts : List ℕ) (n i : ℕ), i < starts.length →
        (mkBlocks starts n).getD i (0, 0) =
          (starts.getD i 0,
            if i + 1 < starts.length then starts.getD (i + 1) 0 else n))
    ∧ (∀ (s2 n : ℕ), mkBlocks [0, s2] n = [(0, s2), (s2, n)]) := by
  refine ⟨?_, ?_, ?_⟩
  · intro starts n
    simp [mkBlocks]
  · intro starts n i hi
    simp only [mkBlocks, List.getD_eq_getElem?_getD, List.getElem?_map,
      List.getElem?_range hi]
    rfl
  · intro s2 n
    simp [mkBlocks, List.range_succ, List.getD]

/-- C6 (witness): the second block of a document with markers at pages 0
and 3 and 7 pages in total. -/
theorem segmenter_blocks_witness :
    (mkBlocks [0, 3] 7).getD 1 (0, 0) =
      ([0, 3].getD 1 0, if 1 + 1 < [0, 3].length then [0, 3].getD (1 + 1) 0 else 7) :=
  segmenter_blocks.2.1 [0, 3] 7 1 (by decide)

/-- C7: the page classifier returns exactly the indices of pages whose
extracted text contains both the certificate-marker phrase and the
form-identifier phrase, in page order; a page whose text extraction
fails (`extract_text` yields nothing, modelled as `none`) is treated as
non-matching rather than as an error. -/
theorem classifier_indices (doc : Document) :
    (∀ i, i ∈ startIndices doc ↔
        i < doc.pages.length ∧ isStartPage (pageAt doc i) = true)
    ∧ (startIndices doc).Pairwise (· < ·)
    ∧ (∀ ht tb w, isStartPage ⟨none, ht, tb, w⟩ = false) := by
  refine ⟨?_, ?_, ?_⟩
  · intro i
    simp [startIndices, List.mem_filter, List.mem_range]
  · exact (List.pairwise_lt_range _).filter _
  · intro ht tb w
    rfl

/-- C8: a document with zero certificate markers yields an empty result
without raising, together with the no-start-pages diagnostic; the
diagnostic sequence in that condition differs from the one of the
"certificates located but no transactions matched" condition, which shows
only the empty-result message. -/
theorem no_certificates_empty_result :
    (∀ doc : Document, startIndices doc = [] →
        extractFinal doc = Except.ok ([], [noStartMsg])
        ∧ appMessages doc = Except.ok [noStartMsg, emptyMsg])
    ∧ (∀ (doc : Document) (recs : List Record) (msgs : List String),
        startIndices doc ≠ [] → extractFinal doc = Except.ok (recs, msgs) →
        recs = [] → appMessages doc = Except.ok [emptyMsg])
    ∧ [noStartMsg, emptyMsg] ≠ ([emptyMsg] : List String) := by
  refine ⟨?_, ?_, by decide⟩
  · intro doc h
    have h1 : extractFinal doc = Except.ok ([], [noStartMsg]) := by
      simp [extractFinal, h]
    exact ⟨h1, by simp [appMessages, h1]⟩
  · intro doc recs msgs hne hex hrecs
    have hex0 := hex
    have hie : (startIndices doc).isEmpty = false := List.isEmpty_eq_false.mpr hne
    simp only [extractFinal, hie, Bool.false_eq_true, if_false] at hex
    cases hfl : (mkBlocks (startIndices doc) doc.pages.length).foldlM
        (fun acc b => do
          let r ← processBlock doc b.1 b.2
          Except.ok (acc ++ r)) ([] : List Record) with
    | error e =>
      rw [hfl] at hex
      exact Except.noConfusion hex
    | ok v =>
      rw [hfl] at hex
      have hex' : (Except.ok (v, ([] : List String)) :
          Except Unit (List Record × List String)) = Except.ok (recs, msgs) := hex
      have hp := Except.ok.inj hex'
      injection hp with hv hm
      subst hrecs
      simp [appMessages, hex0, ← hm]

/-- C8 (witness): the empty document (no markers) and a one-certificate
document with no transaction tables. -/
theorem no_certificates_empty_result_witness :
    appMessages emptyDoc = Except.ok [noStartMsg, emptyMsg]
    ∧ appMessages noTableDoc = Except.ok [emptyMsg] :=
  ⟨(no_certificates_empty_result.1 emptyDoc rfl).2,
   no_certificates_empty_result.2.1 noTableDoc [] [] (by decide) (by decide) rfl⟩

/-- C4: the merger emits exactly one record per distinct serial key of
the certificate's pooled Payment Entry stream (the dict built from the
entries of all the block's pages), pairing each with the deposit of the
same key and using `0` when the key is absent; deposit-only keys never
produce a record (the output length depends only on the payment keys).
The second part ties this to the pipeline: a successfully processed
block is exactly this merge of its pooled entry streams. -/
theorem merge_one_row_per_distinct_key :
    (∀ (h : Header) (pl : List (String × PayInfo)) (cl : List (String × ℚ)),
        (mergeBlock h (buildDict pl) (buildDict cl)).length =
            (pl.map Prod.fst).dedup.length
        ∧ (∀ r ∈ mergeBlock h (buildDict pl) (buildDict cl),
            ∃ e ∈ buildDict pl, r = mkRecord h e ((dlookup e.1 (buildDict cl)).getD 0))
        ∧ (∀ k, k ∉ cl.map Prod.fst → dlookup k (buildDict cl) = none))
    ∧ (∀ (doc : Document) (s e : ℕ) (recs : List Record),
        processBlock doc s e = Except.ok recs →
        ∃ hd pl cl, extractHeader (headerTextAt doc s) = Except.ok hd
          ∧ blockEntries doc s e = Except.ok (pl, cl)
          ∧ recs = mergeBlock hd (buildDict pl) (buildDict cl)
          ∧ recs.length = (pl.map Prod.fst).dedup.length) := by
  constructor
  · intro h pl cl
    refine ⟨?_, ?_, ?_⟩
    · rw [mergeBlock, List.length_map, buildDict_length]
    · intro r hr
      simp only [mergeBlock, List.mem_map] at hr
      obtain ⟨e, he, hre⟩ := hr
      exact ⟨e, he, hre.symm⟩
    · intro k hk
      exact dlookup_eq_none_of_not_mem _ _
        (fun hmem => hk ((keys_buildDict_mem cl k).mp hmem))
  · intro doc s e recs hp
    simp only [processBlock] at hp
    cases hh : extractHeader (headerTextAt doc s) with
    | error u =>
      rw [hh] at hp
      exact Except.noConfusion hp
    | ok hd =>
      rw [hh] at hp
      cases hb : blockEntries doc s e with
      | error u =>
        rw [hb] at hp
        have hp' : (Except.error u : Except Unit (List Record)) = Except.ok recs := hp
        exact Except.noConfusion hp'
      | ok pr =>
        rw [hb] at hp
        have hp' : (Except.ok (mergeBlock hd (buildDict pr.1) (buildDict pr.2)) :
            Except Unit (List Record)) = Except.ok recs := hp
        have he := Except.ok.inj hp'
        refine ⟨hd, pr.1, pr.2, rfl, rfl, he.symm, ?_⟩
        rw [← he, mergeBlock, List.length_map, buildDict_length]

/-- C4 (witness): a pooled payment stream with a duplicate serial key
(two pages contributing key 1) produces one row per distinct key, and the
one-certificate sample document decomposes as the theorem states. -/
theorem merge_one_row_per_distinct_key_witness :
    (mergeBlock ⟨"A", "B", "C", "Q1"⟩
        (buildDict [("1", ⟨10, none⟩), ("2", ⟨20, none⟩), ("1", ⟨30, none⟩)])
        (buildDict [("9", (5 : ℚ))])).length =
      (([("1", (⟨10, none⟩ : PayInfo)), ("2", ⟨20, none⟩),
         ("1", ⟨30, none⟩)].map Prod.fst).dedup).length
    ∧ ∃ hd pl cl, extractHeader (headerTextAt goodDoc 0) = Except.ok hd
        ∧ blockEntries goodDoc 0 1 = Except.ok (pl, cl)
        ∧ [({ quarter := "Q3", dateOfDeduction := some "01-04-2023",
              deducteeName := "JOHN DOE", pan := "ABCDE1234F",
              taxableValue := 50000, ratePct := "10.00", tdsAmount := 5000,
              deductorName := "ACME LTD" } : Record)] =
            mergeBlock hd (buildDict pl) (buildDict cl)
        ∧ [({ quarter := "Q3", dateOfDeduction := some "01-04-2023",
              deducteeName := "JOHN DOE", pan := "ABCDE1234F",
              taxableValue := 50000, ratePct := "10.00", tdsAmount := 5000,
              deductorName := "ACME LTD" } : Record)].length =
            (pl.map Prod.fst).dedup.length :=
  ⟨(merge_one_row_per_distinct_key.1 ⟨"A", "B", "C", "Q1"⟩
      [("1", ⟨10, none⟩), ("2", ⟨20, none⟩), ("1", ⟨30, none⟩)] [("9", 5)]).1,
   merge_one_row_per_distinct_key.2 goodDoc 0 1 _ (by decide)⟩

/-- C2 (spec-modelled): per-page transaction extraction tries the
structured-table strategy, then the line-pattern strategy, then the
spatial strategy, accepting the first whose result holds at least one
entry; and on Scenario D's page text (the two lines
`50000.00 194C 01-04-2023` and `5000.00 0510001 01-04-2023`, no tables)
the line-pattern strategy yields one Payment Entry and one Deposit Entry
that pair positionally (both keyed "1") into one record with rate
`10.00`. -/
theorem strategy_fallthrough_scenarioD :
    (∀ (payR depR : Word → Bool) (p : Page)
        (r1 : List (String × PayInfo) × List (String × ℚ)),
        pageEntries p = Except.ok r1 →
        extractPageEntries payR depR p =
          if hasEntry r1 then Except.ok r1
          else if hasEntry (linePatternEntries (pageText p)) then
            Except.ok (linePatternEntries (pageText p))
          else Except.ok (spatialEntries payR depR p.words))
    ∧ linePatternEntries scenarioDText =
        ([("1", ⟨50000, some "01-04-2023"⟩)], [("1", (5000 : ℚ))])
    ∧ extractPageEntries noRegion noRegion scenarioDPage =
        Except.ok ([("1", ⟨50000, some "01-04-2023"⟩)], [("1", (5000 : ℚ))])
    ∧ (∀ h : Header,
        mergeBlock h (buildDict [("1", ⟨50000, some "01-04-2023"⟩)])
            (buildDict [("1", (5000 : ℚ))]) =
          [{ quarter := h.quarter, dateOfDeduction := some "01-04-2023",
             deducteeName := h.deducteeName, pan := h.pan, taxableValue := 50000,
             ratePct := "10.00", tdsAmount := 5000,
             deductorName := h.deductorName }]) := by
  refine ⟨?_, by decide, by decide, ?_⟩
  · intro payR depR p r1 h1
    simp only [extractPageEntries, h1]
    rfl
  · intro h
    rfl

/-- C2 (witness): the fall-through rule instantiated on Scenario D's
page, whose structured-table strategy yields no entries. -/
theorem strategy_fallthrough_scenarioD_witness :
    extractPageEntries noRegion noRegion scenarioDPage =
      (if hasEntry ([], []) then
        Except.ok (([], []) : List (String × PayInfo) × List (String × ℚ))
      else if hasEntry (linePatternEntries (pageText scenarioDPage)) then
        Except.ok (linePatternEntries (pageText scenarioDPage))
      else Except.ok (spatialEntries noRegion noRegion scenarioDPage.words)) :=
  strategy_fallthrough_scenarioD.1 noRegion noRegion scenarioDPage ([], []) (by decide)

